import Mathlib

/-
Verification of mp_orders.py: a parallel fetcher that resolves Mercado Pago
payment ids to order/external_reference rows, with a per-identifier
retry/backoff loop and a CSV result sink.

Modelling conventions:
- JSON values are modelled by JsonLite (numbers as integers; floats do not
  occur in the claims under study). Python dicts are association lists.
- Python truthiness and str() are modelled by pyTruthy / pyStr; str() of
  containers uses the Python repr of the elements (plain strings, without
  escape processing).
- requests responses are modelled by HttpResponse: the status code, the
  Retry-After header, the Content-Type header, the result of resp.json()
  when attempted (none = json.JSONDecodeError), and resp.text.
- Machine floats (the backoff factor and time.sleep amounts) are modelled
  as exact rationals; float(s) of an all-digit string is its integer value.
- Each attempt of the retry loop receives an AttemptResult from the
  environment (a function from attempt number): an HTTP response, a
  requests.RequestException, or any other raised exception (unexpected).
- The str.isdigit of line 71 is modelled over ASCII digit strings.
-/

/-- JSON-like values as produced by resp.json(). -/
inductive JsonLite where
  | null : JsonLite
  | bool (b : Bool) : JsonLite
  | num (n : Int) : JsonLite
  | str (s : String) : JsonLite
  | arr (xs : List JsonLite) : JsonLite
  | obj (kvs : List (String × JsonLite)) : JsonLite

/-- Python dict.get on the association-list model of a dict. -/
def lookupJ (kvs : List (String × JsonLite)) (k : String) : Option JsonLite :=
  List.lookup k kvs

/-- Python truthiness of a JSON value. -/
def pyTruthy : JsonLite → Bool
  | .null => false
  | .bool b => b
  | .num n => !(n == 0)
  | .str s => !(s == "")
  | .arr xs => !xs.isEmpty
  | .obj kvs => !kvs.isEmpty

mutual

/-- Python repr of a JSON value (strings shown without escape processing). -/
def pyRepr : JsonLite → String
  | .null => "None"
  | .bool true => "True"
  | .bool false => "False"
  | .num n => toString n
  | .str s => "\x27" ++ s ++ "\x27"
  | .arr xs => "[" ++ pyReprList xs ++ "]"
  | .obj kvs => "\x7b" ++ pyReprFields kvs ++ "\x7d"

/-- Comma-separated reprs of the elements of a Python list. -/
def pyReprList : List JsonLite → String
  | [] => ""
  | [x] => pyRepr x
  | x :: y :: xs => pyRepr x ++ ", " ++ pyReprList (y :: xs)

/-- Comma-separated key: value reprs of the items of a Python dict. -/
def pyReprFields : List (String × JsonLite) → String
  | [] => ""
  | [(k, v)] => "\x27" ++ k ++ "\x27: " ++ pyRepr v
  | (k, v) :: kv :: kvs => "\x27" ++ k ++ "\x27: " ++ pyRepr v ++ ", " ++ pyReprFields (kv :: kvs)

end

/-- Python str() of a JSON value. -/
def pyStr : JsonLite → String
  | .null => "None"
  | .bool true => "True"
  | .bool false => "False"
  | .num n => toString n
  | .str s => s
  | .arr xs => pyRepr (.arr xs)
  | .obj kvs => pyRepr (.obj kvs)

/-- The ASCII fragment of Python str.isdigit. -/
def pyIsdigit (s : String) : Bool :=
  !s.data.isEmpty && s.data.all Char.isDigit

/-- Python str.startswith. -/
def strStartsWith (s p : String) : Bool :=
  List.isPrefixOf p.data s.data

/-- Python string slicing s[:n]. -/
def strTake (s : String) (n : Nat) : String :=
  ⟨s.data.take n⟩

/-- The numeric value of a decimal digit string: what float() returns on a
string accepted by the isdigit guard of line 71 (exact in the rational
model of machine floats). -/
def strToNatVal (s : String) : Nat :=
  s.data.foldl (fun n c => n * 10 + (c.toNat - 48)) 0

/-- Line 80/81: str(x or "") applied to the result of dict.get —
maps an absent or falsy value to "", a truthy value to str() of it. -/
def strOrEmpty : Option JsonLite → String
  | none => ""
  | some j => if pyTruthy j then pyStr j else ""

/-- Line 92: data.get("message") or data.get("error") or data.get("cause"),
followed by the line 93 truthiness test: the first truthy value among the
three fields, if any. -/
def apiMsgOf (kvs : List (String × JsonLite)) : Option JsonLite :=
  ([lookupJ kvs "message", lookupJ kvs "error", lookupJ kvs "cause"].filterMap id).find? pyTruthy

/-- Line 100: err or f"HTTP 123" — Python or on an optional string, where
None and "" fall through to the generic message. -/
def errOrHTTP (err : Option String) (status : Nat) : String :=
  match err with
  | some s => if s == "" then "HTTP " ++ toString status else s
  | none => "HTTP " ++ toString status

/-- One HTTP response as seen by fetch_payment: status_code, the
Retry-After header, the Content-Type header, the result of resp.json()
when the body is parsed (none = json.JSONDecodeError), and resp.text. -/
structure HttpResponse where
  status : Nat
  retryAfter : Option String
  contentType : String
  jsonBody : Option JsonLite
  text : String

/-- What one iteration of the retry loop receives from the try block:
a response, a requests.RequestException (caught at line 102), or any
other exception (uncaught by fetch_payment). -/
inductive AttemptResult where
  | response (r : HttpResponse) : AttemptResult
  | requestException (msg : String) : AttemptResult
  | unexpected (msg : String) : AttemptResult

/-- The CSV row dict returned by fetch_payment (lines 44-47). -/
structure Row where
  payment_id : String
  order_id : String
  external_reference : String
  http_status : Nat
  error : String
deriving DecidableEq

/-- Line 71: float(retry_after) if (retry_after and retry_after.isdigit())
else backoff ** attempt. -/
def sleepSeconds (retryAfter : Option String) (backoff : ℚ) (attempt : Nat) : ℚ :=
  match retryAfter with
  | some s => if !(s == "") && pyIsdigit s then ((strToNatVal s : Nat) : ℚ) else backoff ^ attempt
  | none => backoff ^ attempt

/-- Lines 89-101: the non-success row, given the parsed data and the err
variable accumulated at lines 57-66. -/
def mkErrRow (pid : String) (status : Nat) (data : Option JsonLite) (err0 : Option String) : Row :=
  let err1 : Option String :=
    match data with
    | some (.obj kvs) =>
      match apiMsgOf kvs with
      | some v => some (pyStr v)
      | none => err0
    | _ => err0
  ⟨pid, "", "", status, errOrHTTP err1 status⟩

/-- Lines 57-63: the data variable — the parsed body when the
Content-Type is JSON, None otherwise. -/
def respData (r : HttpResponse) : Option JsonLite :=
  if strStartsWith r.contentType "application/json" then r.jsonBody else none

/-- Lines 57-66: the err variable after body handling — the parse-failure
message for a JSON Content-Type, the truncated body text for a non-JSON
Content-Type on a non-2xx status, None otherwise. -/
def respErr0 (r : HttpResponse) : Option String :=
  if strStartsWith r.contentType "application/json" then
    match r.jsonBody with
    | none => some "Invalid JSON in response"
    | some _ => none
  else
    if 200 ≤ r.status ∧ r.status < 300 then none else some (strTake r.text 500)

/-- Lines 54-66 and 75-101: classify one response into the returned row
(used when the retry branch of lines 69-73 is not taken). -/
def responseRow (pid : String) (r : HttpResponse) : Row :=
  if 200 ≤ r.status ∧ r.status < 300 then
    match respData r with
    | some (.obj kvs) =>
      { payment_id := pid
        order_id :=
          match lookupJ kvs "order" with
          | some (.obj okvs) => strOrEmpty (lookupJ okvs "id")
          | _ => ""
        external_reference := strOrEmpty (lookupJ kvs "external_reference")
        http_status := r.status
        error := "" }
    | _ => mkErrRow pid r.status (respData r) (respErr0 r)
  else
    mkErrRow pid r.status (respData r) (respErr0 r)

/-- The effect of one iteration of the retry loop: sleep then continue,
return a row, or propagate an exception out of fetch_payment. -/
inductive Step where
  | retry (delay : ℚ) : Step
  | done (row : Row) : Step
  | raised (msg : String) : Step
deriving DecidableEq

/-- The body of the for loop of lines 51-112, for a given attempt number
and the result the environment supplies for that attempt. -/
def attemptStep (pid : String) (max_retries : Nat) (backoff : ℚ) (attempt : Nat)
    (ar : AttemptResult) : Step :=
  match ar with
  | .response r =>
    if r.status ∈ [429, 500, 502, 503, 504] ∧ attempt < max_retries then
      .retry (sleepSeconds r.retryAfter backoff attempt)
    else
      .done (responseRow pid r)
  | .requestException msg =>
    if attempt < max_retries then
      .retry (backoff ^ attempt)
    else
      .done ⟨pid, "", "", 0, "Request failed: " ++ msg⟩
  | .unexpected msg => .raised msg

/-- The for loop of lines 51-112: attempts numbered attempt, attempt+1, ...
with fuel iterations remaining (the loop runs attempts 1..max_retries, so
the initial call is attempt = 1, fuel = max_retries). Returns .ok none
when the loop exhausts its range without returning. -/
def fetchGo (pid : String) (max_retries : Nat) (backoff : ℚ) (env : Nat → AttemptResult) :
    Nat → Nat → Except String (Option Row)
  | _, 0 => .ok none
  | attempt, fuel + 1 =>
    match attemptStep pid max_retries backoff attempt (env attempt) with
    | .raised msg => .error msg
    | .done row => .ok (some row)
    | .retry _ => fetchGo pid max_retries backoff env (attempt + 1) fuel

/-- fetch_payment (lines 41-121): the retry loop followed by the
fallback row of lines 114-121. An uncaught exception is the .error case. -/
def fetch_payment (pid : String) (max_retries : Nat) (backoff : ℚ)
    (env : Nat → AttemptResult) : Except String Row :=
  match fetchGo pid max_retries backoff env 1 max_retries with
  | .error msg => .error msg
  | .ok (some row) => .ok row
  | .ok none => .ok ⟨pid, "", "", 0, "Exhausted retries"⟩

/-- The collection loop of main (lines 181-189): futures are consumed in
completion order (the given list order); future.result() re-raises an
exception raised inside the worker, which aborts the loop — rows written
before the abort are kept, the abort message is returned, and the
remaining futures are never written. -/
def mainLoop (order : List String) (max_retries : Nat) (backoff : ℚ)
    (envs : String → Nat → AttemptResult) : List Row × Option String :=
  match order with
  | [] => ([], none)
  | pid :: rest =>
    match fetch_payment pid max_retries backoff (envs pid) with
    | .error msg => ([], some msg)
    | .ok row =>
      let rec_result := mainLoop rest max_retries backoff envs
      (row :: rec_result.1, rec_result.2)

/-- Boolean substring test: needle occurs contiguously in hay. -/
def strHas (hay needle : String) : Bool :=
  (List.range (hay.data.length + 1)).any fun i => List.isPrefixOf needle.data (hay.data.drop i)

/-- The parsed body of the worked example of the spec: order id 123 and
external reference ref-9. -/
def exKvs : List (String × JsonLite) :=
  [("order", .obj [("id", .str "123")]), ("external_reference", .str "ref-9")]

/-- A successful 200 response carrying the worked-example body. -/
def okResp0 : HttpResponse :=
  ⟨200, none, "application/json", some (.obj exKvs), ""⟩

/-- An environment where every attempt of every identifier immediately
succeeds with the worked-example response. -/
def envAllOk : String → Nat → AttemptResult :=
  fun _ _ => .response okResp0

/-- An environment where the worker for identifier A raises an exception
that is not a requests.RequestException (for example the ValueError that
float() raises at line 71 on a non-ASCII digit Retry-After header that
str.isdigit accepts), while every other identifier succeeds. -/
def envAbort : String → Nat → AttemptResult :=
  fun pid _ => if pid = "A" then .unexpected "ValueError" else .response okResp0

/-- A 429 response carrying the numeric Retry-After header 7. -/
def respRetry7 : HttpResponse :=
  ⟨429, some "7", "application/json", some (.obj []), ""⟩

/-- A 404 response whose JSON body carries an API message field. -/
def resp404msg : HttpResponse :=
  ⟨404, none, "application/json", some (.obj [("message", .str "not found")]), ""⟩

/-- The parsed body of resp404msg. -/
def kvs404 : List (String × JsonLite) :=
  [("message", .str "not found")]

/-- A 500 response whose JSON body is an empty mapping (no API message). -/
def resp500plain : HttpResponse :=
  ⟨500, none, "application/json", some (.obj []), ""⟩

/-- A 200 response with a JSON Content-Type whose body fails to parse. -/
def respBadJson : HttpResponse :=
  ⟨200, none, "application/json", none, "garbage"⟩

/-- A parsed 200 body whose id field is null and whose external_reference
field is false — present but falsy values. -/
def falsyKvs : List (String × JsonLite) :=
  [("order", .obj [("id", .null)]), ("external_reference", .bool false)]

/-- A 200 response carrying falsyKvs as its parsed body. -/
def respFalsy : HttpResponse :=
  ⟨200, none, "application/json", some (.obj falsyKvs), ""⟩

/-- A retry decision is only ever taken on an attempt strictly below
max_retries: both the line 69 branch and the line 103 branch test
attempt < max_retries. -/
theorem attemptStep_retry_lt {pid : String} {max_retries : Nat} {backoff : ℚ}
    {attempt : Nat} {ar : AttemptResult} {d : ℚ}
    (h : attemptStep pid max_retries backoff attempt ar = .retry d) :
    attempt < max_retries := by
  cases ar with
  | response r =>
    simp only [attemptStep] at h
    split at h
    · next hc => exact hc.2
    · exact Step.noConfusion h
  | requestException msg =>
    simp only [attemptStep] at h
    split at h
    · next hc => exact hc
    · exact Step.noConfusion h
  | unexpected msg => exact Step.noConfusion h

/-- An exception propagates out of the loop body only when the attempt
raised something other than a requests.RequestException. -/
theorem attemptStep_raised {pid : String} {max_retries : Nat} {backoff : ℚ}
    {attempt : Nat} {ar : AttemptResult} {msg : String}
    (h : attemptStep pid max_retries backoff attempt ar = .raised msg) :
    ar = .unexpected msg := by
  cases ar with
  | response r =>
    simp only [attemptStep] at h
    split at h
    · exact Step.noConfusion h
    · exact Step.noConfusion h
  | requestException m =>
    simp only [attemptStep] at h
    split at h
    · exact Step.noConfusion h
    · exact Step.noConfusion h
  | unexpected m =>
    simp only [attemptStep] at h
    injection h with h2
    rw [h2]

/-- Every row built by responseRow carries the identifier it was built
for. -/
theorem responseRow_payment_id (pid : String) (r : HttpResponse) :
    (responseRow pid r).payment_id = pid := by
  unfold responseRow
  split
  · split
    · rfl
    · rfl
  · rfl

/-- Every row returned by the loop body carries the identifier. -/
theorem attemptStep_done_payment_id {pid : String} {max_retries : Nat} {backoff : ℚ}
    {attempt : Nat} {ar : AttemptResult} {row : Row}
    (h : attemptStep pid max_retries backoff attempt ar = .done row) :
    row.payment_id = pid := by
  cases ar with
  | response r =>
    simp only [attemptStep] at h
    split at h
    · exact Step.noConfusion h
    · injection h with h2
      rw [← h2]
      exact responseRow_payment_id pid r
  | requestException m =>
    simp only [attemptStep] at h
    split at h
    · exact Step.noConfusion h
    · injection h with h2
      rw [← h2]
  | unexpected m => exact Step.noConfusion h

/-- When no attempt raises an unexpected exception, the loop always
returns a row (or falls through), never propagates, and every returned
row carries the loop identifier. -/
theorem fetchGo_ok (pid : String) (max_retries : Nat) (backoff : ℚ)
    (env : Nat → AttemptResult) (henv : ∀ i msg, env i ≠ .unexpected msg) :
    ∀ fuel attempt, ∃ o, fetchGo pid max_retries backoff env attempt fuel = .ok o ∧
      ∀ row, o = some row → row.payment_id = pid := by
  intro fuel
  induction fuel with
  | zero =>
    intro attempt
    exact ⟨none, rfl, fun row h => Option.noConfusion h⟩
  | succ f ih =>
    intro attempt
    cases hstep : attemptStep pid max_retries backoff attempt (env attempt) with
    | raised msg => exact absurd (attemptStep_raised hstep) (henv attempt msg)
    | done row =>
      refine ⟨some row, ?_, ?_⟩
      · simp only [fetchGo, hstep]
      · intro row2 h
        injection h with h2
        rw [← h2]
        exact attemptStep_done_payment_id hstep
    | retry d =>
      obtain ⟨o, ho, hp⟩ := ih (attempt + 1)
      refine ⟨o, ?_, hp⟩
      simp only [fetchGo, hstep, ho]

/-- When no attempt raises an unexpected exception, fetch_payment always
returns a row for its identifier. -/
theorem fetch_payment_ok (pid : String) (max_retries : Nat) (backoff : ℚ)
    (env : Nat → AttemptResult) (henv : ∀ i msg, env i ≠ .unexpected msg) :
    ∃ row, fetch_payment pid max_retries backoff env = .ok row ∧ row.payment_id = pid := by
  obtain ⟨o, ho, hp⟩ := fetchGo_ok pid max_retries backoff env henv max_retries 1
  cases o with
  | none =>
    exact ⟨⟨pid, "", "", 0, "Exhausted retries"⟩, by simp only [fetch_payment, ho], rfl⟩
  | some row =>
    exact ⟨row, by simp only [fetch_payment, ho], hp row rfl⟩

/-- When no worker raises an unexpected exception, the collection loop
never aborts and writes the rows in completion order, one per future. -/
theorem mainLoop_complete (max_retries : Nat) (backoff : ℚ)
    (envs : String → Nat → AttemptResult)
    (henv : ∀ pid i msg, envs pid i ≠ .unexpected msg) :
    ∀ order : List String, (mainLoop order max_retries backoff envs).2 = none ∧
      (mainLoop order max_retries backoff envs).1.map Row.payment_id = order := by
  intro order
  induction order with
  | nil => exact ⟨rfl, rfl⟩
  | cons pid rest ih =>
    obtain ⟨row, hrow, hpid⟩ := fetch_payment_ok pid max_retries backoff (envs pid) (henv pid)
    simp only [mainLoop, hrow, List.map_cons]
    refine ⟨ih.1, ?_⟩
    rw [hpid, ih.2]

/-- C1: for every input list of N identifiers and every completion order
of the worker futures, when every attempt yields an HTTP response or a
requests.RequestException (the events of the decision table), the result
sink receives exactly N outcome rows, whose identifiers are a permutation
of the input identifiers — one row per identifier, no duplicates, no
omissions — regardless of how many attempts each retry loop performs. -/
theorem sink_receives_one_outcome_per_identifier
    (pids order : List String) (max_retries : Nat) (backoff : ℚ)
    (envs : String → Nat → AttemptResult)
    (hperm : order.Perm pids)
    (henv : ∀ pid i msg, envs pid i ≠ .unexpected msg) :
    (mainLoop order max_retries backoff envs).2 = none ∧
    ((mainLoop order max_retries backoff envs).1.map Row.payment_id).Perm pids ∧
    (mainLoop order max_retries backoff envs).1.length = pids.length ∧
    ∀ pid, ((mainLoop order max_retries backoff envs).1.map Row.payment_id).count pid =
      pids.count pid := by
  obtain ⟨habort, hmap⟩ := mainLoop_complete max_retries backoff envs henv order
  refine ⟨habort, ?_, ?_, ?_⟩
  · rw [hmap]
    exact hperm
  · have hlen := congrArg List.length hmap
    rw [List.length_map] at hlen
    rw [hlen, hperm.length_eq]
  · intro pid
    rw [hmap]
    exact hperm.count_eq pid

/-- Witness for C1 at a two-identifier input collected in reversed
completion order, every attempt succeeding immediately. -/
theorem sink_receives_one_outcome_per_identifier_witness :
    ((["b", "a"] : List String).Perm ["a", "b"] ∧
      ∀ pid i msg, envAllOk pid i ≠ .unexpected msg) ∧
    ((mainLoop ["b", "a"] 3 (6/5) envAllOk).2 = none ∧
     ((mainLoop ["b", "a"] 3 (6/5) envAllOk).1.map Row.payment_id).Perm ["a", "b"] ∧
     (mainLoop ["b", "a"] 3 (6/5) envAllOk).1.length = (["a", "b"] : List String).length ∧
     ∀ pid, ((mainLoop ["b", "a"] 3 (6/5) envAllOk).1.map Row.payment_id).count pid =
       (["a", "b"] : List String).count pid) :=
  ⟨⟨List.Perm.swap "a" "b" [], fun _ _ _ h => AttemptResult.noConfusion h⟩,
   sink_receives_one_outcome_per_identifier ["a", "b"] ["b", "a"] 3 (6/5) envAllOk
     (List.Perm.swap "a" "b" []) (fun _ _ _ h => AttemptResult.noConfusion h)⟩

/-- C2 (code bug): an exception other than requests.RequestException
raised inside a worker is not converted into a TERMINAL outcome: fetch_payment
propagates it (only requests.RequestException is caught at line 102), and
main re-raises it from future.result() at line 182 with no try/except, so
the collection loop aborts. At the failing input — identifiers A and B, with
the worker for A raising ValueError — the sink receives zero rows: the
outcome for A is never produced and the outcome B would have produced
(shown in the last conjunct) is lost. -/
theorem unexpected_worker_exception_aborts_run :
    mainLoop ["A", "B"] 3 (6/5) envAbort = ([], some "ValueError") ∧
    fetch_payment "A" 3 (6/5) (envAbort "A") = .error "ValueError" ∧
    fetch_payment "B" 3 (6/5) (envAbort "B") = .ok ⟨"B", "123", "ref-9", 200, ""⟩ :=
  ⟨rfl, rfl, rfl⟩

/-- The loop of lines 51-112, started at attempt with fuel iterations left
under the invariant attempt + fuel = max_retries + 1, never exhausts its
range: the final iteration cannot decide RETRY. -/
theorem fetchGo_reaches_terminal (pid : String) (max_retries : Nat) (backoff : ℚ)
    (env : Nat → AttemptResult) :
    ∀ fuel attempt, attempt + fuel = max_retries + 1 → 1 ≤ fuel →
      fetchGo pid max_retries backoff env attempt fuel ≠ .ok none := by
  intro fuel
  induction fuel with
  | zero =>
    intro attempt _ hf
    exact absurd hf (by omega)
  | succ f ih =>
    intro attempt hsum _
    cases hstep : attemptStep pid max_retries backoff attempt (env attempt) with
    | raised msg => simp only [fetchGo, hstep]; exact fun h => Except.noConfusion h
    | done row =>
      simp only [fetchGo, hstep]
      intro h
      injection h with h2
      exact Option.noConfusion h2
    | retry d =>
      have hlt := attemptStep_retry_lt hstep
      simp only [fetchGo, hstep]
      exact ih (attempt + 1) (by omega) (by omega)

/-- C9 (amended): for every identifier, environment, and configuration
with max_retries at least 1, the retry loop reaches a terminal decision
(a returned row or a propagated exception) within the loop, so the
trailing fallback of lines 114-121 is unreachable; the original claim
fails for the configuration max_retries = 0, where range(1, 1) is empty
and the fallback row is returned (the counterexample). -/
theorem fetch_loop_never_falls_through (pid : String) (max_retries : Nat) (backoff : ℚ)
    (env : Nat → AttemptResult) (h : 1 ≤ max_retries) :
    fetchGo pid max_retries backoff env 1 max_retries ≠ .ok none :=
  fetchGo_reaches_terminal pid max_retries backoff env max_retries 1 (by omega) h

/-- Witness for the amended C9 at max_retries = 1. -/
theorem fetch_loop_never_falls_through_witness :
    1 ≤ 1 ∧ fetchGo "p" 1 (6/5) (envAllOk "p") 1 1 ≠ Except.ok none :=
  ⟨Nat.le.refl, fetch_loop_never_falls_through "p" 1 (6/5) (envAllOk "p") Nat.le.refl⟩

/-- C9 counterexample: with the configuration max_retries = 0 the loop
body never runs, the loop falls through, and fetch_payment returns the
fallback Exhausted-retries row — the fallback is reachable, contrary to
the claim that it is unreachable for every configuration. -/
theorem fetch_fallback_reachable_at_zero_retries :
    fetchGo "p" 0 (6/5) (envAllOk "p") 1 0 = .ok none ∧
    fetch_payment "p" 0 (6/5) (envAllOk "p") = .ok ⟨"p", "", "", 0, "Exhausted retries"⟩ :=
  ⟨rfl, rfl⟩

/-- C3: on a response with status in 429/500/502/503/504 at an attempt
strictly below max_retries, the loop body decides RETRY with the sleep of
line 71: exactly the Retry-After header value in seconds when the header
is present and is a non-negative integer string (all decimal digits),
and backoff^attempt when the header is absent or not such a string. -/
theorem retryable_status_sleep (pid : String) (max_retries : Nat) (backoff : ℚ)
    (attempt : Nat) (r : HttpResponse)
    (hs : r.status ∈ [429, 500, 502, 503, 504]) (ha : attempt < max_retries) :
    attemptStep pid max_retries backoff attempt (.response r) =
      .retry (sleepSeconds r.retryAfter backoff attempt) ∧
    (∀ s, r.retryAfter = some s → pyIsdigit s = true →
      sleepSeconds r.retryAfter backoff attempt = ((strToNatVal s : Nat) : ℚ)) ∧
    (∀ s, r.retryAfter = some s → pyIsdigit s = false →
      sleepSeconds r.retryAfter backoff attempt = backoff ^ attempt) ∧
    (r.retryAfter = none → sleepSeconds r.retryAfter backoff attempt = backoff ^ attempt) := by
  refine ⟨?_, ?_, ?_, ?_⟩
  · simp only [attemptStep]
    rw [if_pos ⟨hs, ha⟩]
  · intro s hsome hd
    have hne : (s == "") = false := by
      refine beq_eq_false_iff_ne.mpr ?_
      intro he
      rw [he] at hd
      exact Bool.noConfusion hd
    rw [hsome]
    simp [sleepSeconds, hd, hne]
  · intro s hsome hd
    rw [hsome]
    simp [sleepSeconds, hd]
  · intro h
    rw [h]
    rfl

/-- Witness for C3 at a 429 response with Retry-After 7 on attempt 1 of 3:
the decided sleep is 7 seconds, not the exponential fallback. -/
theorem retryable_status_sleep_witness :
    (respRetry7.status ∈ [429, 500, 502, 503, 504] ∧ 1 < 3) ∧
    attemptStep "p" 3 (6/5) 1 (.response respRetry7) =
      .retry (sleepSeconds respRetry7.retryAfter (6/5) 1) ∧
    sleepSeconds respRetry7.retryAfter (6/5) 1 = ((7 : Nat) : ℚ) ∧
    strToNatVal "7" = 7 := by
  have h := retryable_status_sleep "p" 3 (6/5) 1 respRetry7 (by decide) (by decide)
  exact ⟨⟨by decide, by decide⟩, h.1, h.2.1 "7" rfl (by decide), rfl⟩

/-- C7: on a transport-level failure (requests.RequestException: connection
error or timeout), the loop body decides RETRY with sleep backoff^attempt
when the attempt is strictly below max_retries, and at attempt =
max_retries returns a TERMINAL row with http_status 0 and an error that
contains the transport error message. -/
theorem transport_failure_policy (pid : String) (max_retries : Nat) (backoff : ℚ)
    (attempt : Nat) (msg : String) :
    (attempt < max_retries →
      attemptStep pid max_retries backoff attempt (.requestException msg) =
        .retry (backoff ^ attempt)) ∧
    (attempt = max_retries →
      attemptStep pid max_retries backoff attempt (.requestException msg) =
        .done ⟨pid, "", "", 0, "Request failed: " ++ msg⟩ ∧
      ∃ p, ("Request failed: " ++ msg : String) = p ++ msg) := by
  constructor
  · intro h
    simp only [attemptStep]
    rw [if_pos h]
  · intro h
    subst h
    refine ⟨?_, "Request failed: ", rfl⟩
    simp only [attemptStep]
    rw [if_neg (lt_irrefl attempt)]

/-- Witness for C7: a timeout on attempt 1 of 3 retries with the
exponential sleep; a timeout on attempt 3 of 3 yields the status-0
TERMINAL row carrying the error message. -/
theorem transport_failure_policy_witness :
    ((1 : Nat) < 3 ∧
      attemptStep "p" 3 (6/5) 1 (.requestException "timeout") = .retry ((6/5) ^ 1)) ∧
    ((3 : Nat) = 3 ∧
      attemptStep "p" 3 (6/5) 3 (.requestException "timeout") =
        .done ⟨"p", "", "", 0, "Request failed: timeout"⟩) :=
  ⟨⟨by decide, (transport_failure_policy "p" 3 (6/5) 1 "timeout").1 (by decide)⟩,
   ⟨rfl, ((transport_failure_policy "p" 3 (6/5) 3 "timeout").2 rfl).1⟩⟩

/-- A string starting with the literal HTTP prefix is never empty. -/
theorem http_msg_ne_empty (s : String) : ("HTTP " ++ s) ≠ "" := by
  intro h
  have h2 := congrArg String.data h
  rw [String.data_append] at h2
  simp at h2

/-- A 2xx status is never in the retryable set of line 69. -/
theorem not_retryable_of_2xx {st : Nat} (h2 : 200 ≤ st ∧ st < 300) :
    st ∉ [429, 500, 502, 503, 504] := by
  intro hmem
  obtain ⟨-, hlt⟩ := h2
  simp only [List.mem_cons, List.mem_singleton, List.not_mem_nil, or_false] at hmem
  rcases hmem with rfl | rfl | rfl | rfl | rfl <;> omega

/-- When the line 69 retry condition fails, the loop body returns the
classified row. -/
theorem attemptStep_response_done (pid : String) (max_retries : Nat) (backoff : ℚ)
    (attempt : Nat) (r : HttpResponse)
    (h : ¬(r.status ∈ [429, 500, 502, 503, 504] ∧ attempt < max_retries)) :
    attemptStep pid max_retries backoff attempt (.response r) = .done (responseRow pid r) := by
  simp only [attemptStep]
  rw [if_neg h]

/-- The computed form of responseRow on the success path: 2xx status,
JSON Content-Type, body parsed to a mapping. -/
theorem responseRow_success (pid : String) (r : HttpResponse) (kvs : List (String × JsonLite))
    (h2 : 200 ≤ r.status ∧ r.status < 300)
    (hct : strStartsWith r.contentType "application/json" = true)
    (hb : r.jsonBody = some (.obj kvs)) :
    responseRow pid r =
      ⟨pid,
       (match lookupJ kvs "order" with
        | some (.obj okvs) => strOrEmpty (lookupJ okvs "id")
        | _ => ""),
       strOrEmpty (lookupJ kvs "external_reference"), r.status, ""⟩ := by
  have hd : respData r = some (.obj kvs) := by
    simp [respData, hct, hb]
  unfold responseRow
  rw [if_pos h2, hd]

/-- The computed form of responseRow on a non-2xx status. -/
theorem responseRow_err (pid : String) (r : HttpResponse)
    (hns : ¬(200 ≤ r.status ∧ r.status < 300)) :
    responseRow pid r = mkErrRow pid r.status (respData r) (respErr0 r) := by
  unfold responseRow
  rw [if_neg hns]

/-- The computed form of responseRow on a 2xx status whose data variable
is None (non-JSON Content-Type, or JSON Content-Type that failed to
parse). -/
theorem responseRow_2xx_nodata (pid : String) (r : HttpResponse)
    (h2 : 200 ≤ r.status ∧ r.status < 300) (hd : respData r = none) :
    responseRow pid r = mkErrRow pid r.status none (respErr0 r) := by
  unfold responseRow
  rw [if_pos h2, hd]

/-- C4 counterexample: at the 2xx mapping body with nested order id 0,
the code returns order_id "" (the line 80 str(order.get("id") or "")
collapses the falsy value), while the claim — order_id equal to the
stringified id field whenever the nested order mapping exists — demands
the stringification "0". -/
theorem success_extraction_falsy_id_counterexample :
    responseRow "p" ⟨200, none, "application/json",
        some (.obj [("order", .obj [("id", .num 0)]), ("external_reference", .str "ref-9")]), ""⟩ =
      ⟨"p", "", "ref-9", 200, ""⟩ ∧
    pyStr (.num 0) = "0" ∧
    ("" : String) ≠ "0" :=
  ⟨by decide, by decide, by decide⟩

/-- C4 (amended): for every 2xx response whose JSON body is a mapping,
fetch_payment returns a success outcome with empty error, http_status
passed through, external_reference the stringified top-level
external_reference field when that field is present and truthy (empty
when absent — and, beyond the original claim, also empty when present
but falsy), and order_id the stringified id field of the nested order
mapping when that mapping exists and the field is present and truthy
(empty when the mapping or field is absent — or the field falsy). -/
theorem success_row_extraction (pid : String) (r : HttpResponse) (kvs : List (String × JsonLite))
    (h2 : 200 ≤ r.status ∧ r.status < 300)
    (hct : strStartsWith r.contentType "application/json" = true)
    (hb : r.jsonBody = some (.obj kvs)) :
    (∀ max_retries backoff attempt,
      attemptStep pid max_retries backoff attempt (.response r) = .done (responseRow pid r)) ∧
    (responseRow pid r).payment_id = pid ∧
    (responseRow pid r).http_status = r.status ∧
    (responseRow pid r).error = "" ∧
    (responseRow pid r).external_reference = strOrEmpty (lookupJ kvs "external_reference") ∧
    (∀ v, lookupJ kvs "external_reference" = some v → pyTruthy v = true →
      (responseRow pid r).external_reference = pyStr v) ∧
    (lookupJ kvs "external_reference" = none → (responseRow pid r).external_reference = "") ∧
    (∀ okvs, lookupJ kvs "order" = some (.obj okvs) →
      (responseRow pid r).order_id = strOrEmpty (lookupJ okvs "id") ∧
      (∀ v, lookupJ okvs "id" = some v → pyTruthy v = true →
        (responseRow pid r).order_id = pyStr v) ∧
      (lookupJ okvs "id" = none → (responseRow pid r).order_id = "")) ∧
    (lookupJ kvs "order" = none → (responseRow pid r).order_id = "") := by
  have hrow := responseRow_success pid r kvs h2 hct hb
  refine ⟨?_, ?_, ?_, ?_, ?_, ?_, ?_, ?_, ?_⟩
  · intro max_retries backoff attempt
    exact attemptStep_response_done pid max_retries backoff attempt r
      (fun hc => not_retryable_of_2xx h2 hc.1)
  · rw [hrow]
  · rw [hrow]
  · rw [hrow]
  · rw [hrow]
  · intro v hv htruthy
    rw [hrow]
    simp only [hv, strOrEmpty, htruthy, if_true]
  · intro hv
    rw [hrow]
    simp only [hv, strOrEmpty]
  · intro okvs ho
    refine ⟨?_, ?_, ?_⟩
    · rw [hrow]
      simp only [ho]
    · intro v hv htruthy
      rw [hrow]
      simp only [ho, hv, strOrEmpty, htruthy, if_true]
    · intro hv
      rw [hrow]
      simp only [ho, hv, strOrEmpty]
  · intro ho
    rw [hrow]
    simp only [ho]

/-- Witness for the amended C4 at the worked example of the spec:
order_id 123, external_reference ref-9, empty error. -/
theorem success_row_extraction_witness :
    ((200 ≤ okResp0.status ∧ okResp0.status < 300) ∧
     strStartsWith okResp0.contentType "application/json" = true ∧
     okResp0.jsonBody = some (.obj exKvs)) ∧
    (responseRow "p" okResp0).order_id = "123" ∧
    (responseRow "p" okResp0).external_reference = "ref-9" ∧
    (responseRow "p" okResp0).error = "" := by
  have h := success_row_extraction "p" okResp0 exKvs ⟨by decide, by decide⟩ (by decide) rfl
  refine ⟨⟨⟨by decide, by decide⟩, by decide, rfl⟩, ?_, ?_, h.2.2.2.1⟩
  · exact (h.2.2.2.2.2.2.2.1 [("id", JsonLite.str "123")] rfl).2.1 (JsonLite.str "123") rfl
      (by decide)
  · exact h.2.2.2.2.2.1 (JsonLite.str "ref-9") rfl (by decide)

/-- A value among null, false, 0, "" is falsy. -/
theorem pyTruthy_false_of_falsy {v : JsonLite}
    (hv : v ∈ [JsonLite.null, JsonLite.bool false, JsonLite.num 0, JsonLite.str ""]) :
    pyTruthy v = false := by
  simp only [List.mem_cons, List.mem_singleton, List.not_mem_nil, or_false] at hv
  rcases hv with rfl | rfl | rfl | rfl <;> rfl

/-- C10: on the success path, a present-but-falsy nested order id field
or top-level external_reference field (null, false, 0, or "") yields an
empty outcome field, not a Python stringification of the value ("None",
"False", "0"). -/
theorem falsy_fields_yield_empty (pid : String) (r : HttpResponse)
    (kvs : List (String × JsonLite))
    (h2 : 200 ≤ r.status ∧ r.status < 300)
    (hct : strStartsWith r.contentType "application/json" = true)
    (hb : r.jsonBody = some (.obj kvs)) :
    (∀ okvs v, lookupJ kvs "order" = some (.obj okvs) → lookupJ okvs "id" = some v →
      v ∈ [JsonLite.null, JsonLite.bool false, JsonLite.num 0, JsonLite.str ""] →
      (responseRow pid r).order_id = "") ∧
    (∀ v, lookupJ kvs "external_reference" = some v →
      v ∈ [JsonLite.null, JsonLite.bool false, JsonLite.num 0, JsonLite.str ""] →
      (responseRow pid r).external_reference = "") ∧
    pyStr JsonLite.null = "None" ∧ pyStr (JsonLite.bool false) = "False" ∧
    pyStr (JsonLite.num 0) = "0" := by
  have hrow := responseRow_success pid r kvs h2 hct hb
  refine ⟨?_, ?_, rfl, rfl, by decide⟩
  · intro okvs v ho hv hfalsy
    rw [hrow]
    simp only [ho, hv, strOrEmpty, pyTruthy_false_of_falsy hfalsy, Bool.false_eq_true, if_false]
  · intro v hv hfalsy
    rw [hrow]
    simp only [hv, strOrEmpty, pyTruthy_false_of_falsy hfalsy, Bool.false_eq_true, if_false]

/-- Witness for C10 at a 200 body whose order id is null and whose
external_reference is false: both outcome fields are empty. -/
theorem falsy_fields_yield_empty_witness :
    ((200 ≤ respFalsy.status ∧ respFalsy.status < 300) ∧
     strStartsWith respFalsy.contentType "application/json" = true ∧
     respFalsy.jsonBody = some (.obj falsyKvs)) ∧
    (responseRow "p" respFalsy).order_id = "" ∧
    (responseRow "p" respFalsy).external_reference = "" := by
  have h := falsy_fields_yield_empty "p" respFalsy falsyKvs ⟨by decide, by decide⟩ (by decide) rfl
  exact ⟨⟨⟨by decide, by decide⟩, by decide, rfl⟩,
    h.1 [("id", JsonLite.null)] JsonLite.null rfl rfl (List.mem_cons_self _ _),
    h.2.1 (JsonLite.bool false) rfl (List.mem_cons_of_mem _ (List.mem_cons_self _ _))⟩

/-- C5 counterexample: a 403 response with a non-JSON Content-Type and
body text Forbidden is terminal with error "Forbidden" — the first 500
characters of the body text set at line 66 — not the generic "HTTP 403"
the claim requires in the absence of a structured message field. -/
theorem terminal_non_retryable_counterexample :
    responseRow "p" ⟨403, none, "text/html", none, "Forbidden"⟩ =
      ⟨"p", "", "", 403, "Forbidden"⟩ ∧
    ("Forbidden" : String) ≠ "HTTP 403" :=
  ⟨by decide, by decide⟩

/-- C5 (amended): for every non-2xx response with a status outside the
retryable set, fetch_payment is terminal without retrying, with empty
order/reference fields and http_status passed through; the error is the
first truthy message/error/cause field of the structured body when the
body is a mapping with one (its str(), backstopped by the generic
message if that str() is empty), otherwise "Invalid JSON in response"
when a JSON Content-Type body fails to parse, otherwise — for a non-JSON
Content-Type — the first 500 characters of the body text when non-empty;
the generic "HTTP status" string is used only in the remaining cases. -/
theorem terminal_non_retryable (pid : String) (r : HttpResponse)
    (hns : ¬(200 ≤ r.status ∧ r.status < 300))
    (hnr : r.status ∉ [429, 500, 502, 503, 504]) :
    (∀ max_retries backoff attempt,
      attemptStep pid max_retries backoff attempt (.response r) = .done (responseRow pid r)) ∧
    (responseRow pid r).payment_id = pid ∧
    (responseRow pid r).order_id = "" ∧
    (responseRow pid r).external_reference = "" ∧
    (responseRow pid r).http_status = r.status ∧
    (∀ kvs v, strStartsWith r.contentType "application/json" = true →
      r.jsonBody = some (.obj kvs) → apiMsgOf kvs = some v →
      (responseRow pid r).error =
        (if pyStr v == "" then "HTTP " ++ toString r.status else pyStr v)) ∧
    (∀ kvs, strStartsWith r.contentType "application/json" = true →
      r.jsonBody = some (.obj kvs) → apiMsgOf kvs = none →
      (responseRow pid r).error = "HTTP " ++ toString r.status) ∧
    (strStartsWith r.contentType "application/json" = true → r.jsonBody = none →
      (responseRow pid r).error = "Invalid JSON in response") ∧
    (strStartsWith r.contentType "application/json" = false →
      (responseRow pid r).error =
        (if strTake r.text 500 == "" then "HTTP " ++ toString r.status
         else strTake r.text 500)) := by
  have hrow := responseRow_err pid r hns
  refine ⟨?_, ?_, ?_, ?_, ?_, ?_, ?_, ?_, ?_⟩
  · intro max_retries backoff attempt
    exact attemptStep_response_done pid max_retries backoff attempt r (fun hc => hnr hc.1)
  · rw [hrow]; rfl
  · rw [hrow]; rfl
  · rw [hrow]; rfl
  · rw [hrow]; rfl
  · intro kvs v hct hb hapi
    have hd : respData r = some (.obj kvs) := by simp [respData, hct, hb]
    rw [hrow, hd]
    simp only [mkErrRow, hapi, errOrHTTP]
  · intro kvs hct hb hapi
    have hd : respData r = some (.obj kvs) := by simp [respData, hct, hb]
    have he : respErr0 r = none := by simp [respErr0, hct, hb]
    rw [hrow, hd, he]
    simp only [mkErrRow, hapi, errOrHTTP]
  · intro hct hb
    have hd : respData r = none := by simp [respData, hct, hb]
    have he : respErr0 r = some "Invalid JSON in response" := by simp [respErr0, hct, hb]
    rw [hrow, hd, he]
    simp only [mkErrRow, errOrHTTP]
    rfl
  · intro hct
    have hd : respData r = none := by simp [respData, hct]
    have he : respErr0 r = some (strTake r.text 500) := by simp [respErr0, hct, hns]
    rw [hrow, hd, he]
    simp only [mkErrRow, errOrHTTP]

/-- Witness for the amended C5 at a 404 whose JSON body carries the API
message field not found: terminal, no retry, error "not found". -/
theorem terminal_non_retryable_witness :
    (¬(200 ≤ resp404msg.status ∧ resp404msg.status < 300) ∧
      resp404msg.status ∉ [429, 500, 502, 503, 504]) ∧
    attemptStep "p" 3 (6/5) 1 (.response resp404msg) = .done (responseRow "p" resp404msg) ∧
    (responseRow "p" resp404msg).error = "not found" ∧
    (responseRow "p" resp404msg).order_id = "" := by
  have h := terminal_non_retryable "p" resp404msg (by decide) (by decide)
  refine ⟨⟨by decide, by decide⟩, h.1 3 (6/5) 1, ?_, h.2.2.1⟩
  have he := h.2.2.2.2.2.1 kvs404 (JsonLite.str "not found") (by decide) rfl rfl
  exact he.trans (by decide)

/-- C6 counterexample: a 500 response at attempt = max_retries whose JSON
body carries the message field "internal failure" is terminal with error
"internal failure" (the line 92-94 API-message override), which does not
contain "500" as the claim requires of every 500 at the final attempt. -/
theorem terminal_500_message_counterexample :
    attemptStep "p" 3 (6/5) 3
        (.response ⟨500, none, "application/json",
          some (.obj [("message", .str "internal failure")]), ""⟩) =
      .done ⟨"p", "", "", 500, "internal failure"⟩ ∧
    strHas "internal failure" "500" = false :=
  ⟨by decide, by decide⟩

/-- C6 (amended): a 500 response at attempt = max_retries is terminal
(no retry) with http_status 500; its error contains "500" when the
response supplies no overriding text — a parsed JSON mapping with no
truthy message/error/cause field, or a non-JSON Content-Type with empty
body text, both yield exactly "HTTP 500" — while a body-supplied API
message replaces that string and need not contain "500". -/
theorem terminal_500_at_final_attempt (pid : String) (max_retries : Nat) (backoff : ℚ)
    (attempt : Nat) (r : HttpResponse)
    (h500 : r.status = 500) (hmax : attempt = max_retries) :
    attemptStep pid max_retries backoff attempt (.response r) = .done (responseRow pid r) ∧
    (responseRow pid r).http_status = 500 ∧
    (∀ kvs, strStartsWith r.contentType "application/json" = true →
      r.jsonBody = some (.obj kvs) → apiMsgOf kvs = none →
      (responseRow pid r).error = "HTTP 500" ∧
      strHas (responseRow pid r).error "500" = true) ∧
    (strStartsWith r.contentType "application/json" = false → strTake r.text 500 = "" →
      (responseRow pid r).error = "HTTP 500" ∧
      strHas (responseRow pid r).error "500" = true) := by
  have hns : ¬(200 ≤ r.status ∧ r.status < 300) := by
    rw [h500]
    omega
  have hrow := responseRow_err pid r hns
  refine ⟨?_, ?_, ?_, ?_⟩
  · refine attemptStep_response_done pid max_retries backoff attempt r ?_
    rintro ⟨-, hlt⟩
    rw [hmax] at hlt
    exact lt_irrefl max_retries hlt
  · rw [hrow, h500]; rfl
  · intro kvs hct hb hapi
    have hd : respData r = some (.obj kvs) := by simp [respData, hct, hb]
    have he : respErr0 r = none := by simp [respErr0, hct, hb]
    have herr : (responseRow pid r).error = "HTTP 500" := by
      rw [hrow, hd, he]
      simp only [mkErrRow, hapi, errOrHTTP, h500]
      decide
    exact ⟨herr, by rw [herr]; decide⟩
  · intro hct htext
    have hd : respData r = none := by simp [respData, hct]
    have he : respErr0 r = some (strTake r.text 500) := by simp [respErr0, hct, hns]
    have herr : (responseRow pid r).error = "HTTP 500" := by
      rw [hrow, hd, he, htext]
      simp only [mkErrRow, errOrHTTP, h500]
      decide
    exact ⟨herr, by rw [herr]; decide⟩

/-- Witness for the amended C6 at a 500 whose JSON body is an empty
mapping, at attempt 3 of max_retries 3: terminal with error "HTTP 500",
which contains "500". -/
theorem terminal_500_at_final_attempt_witness :
    (resp500plain.status = 500 ∧ (3 : Nat) = 3) ∧
    attemptStep "p" 3 (6/5) 3 (.response resp500plain) = .done (responseRow "p" resp500plain) ∧
    (responseRow "p" resp500plain).error = "HTTP 500" ∧
    strHas (responseRow "p" resp500plain).error "500" = true := by
  have h := terminal_500_at_final_attempt "p" 3 (6/5) 3 resp500plain rfl rfl
  have hc := h.2.2.1 [] rfl rfl rfl
  exact ⟨⟨rfl, rfl⟩, h.1, hc.1, hc.2⟩

/-- C8 counterexample: at a 200 response with a JSON Content-Type whose
body fails to parse, the error string is "Invalid JSON in response" (set
at line 63), not the "invalid response body" the decision table
specifies. -/
theorem invalid_body_error_string_counterexample :
    responseRow "p" ⟨200, none, "application/json", none, "garbage"⟩ =
      ⟨"p", "", "", 200, "Invalid JSON in response"⟩ ∧
    ("Invalid JSON in response" : String) ≠ "invalid response body" :=
  ⟨by decide, by decide⟩

/-- C8 (amended): every 2xx response whose body is not parseable
structured data is terminal without retrying, with empty order and
reference fields and a non-empty error; the error string is "Invalid
JSON in response" when a JSON Content-Type body fails to parse (not the
decision table wording "invalid response body"), and the generic
"HTTP status" message when the Content-Type is not JSON at all. -/
theorem terminal_2xx_unparseable (pid : String) (r : HttpResponse)
    (h2 : 200 ≤ r.status ∧ r.status < 300) :
    (∀ max_retries backoff attempt,
      attemptStep pid max_retries backoff attempt (.response r) = .done (responseRow pid r)) ∧
    (strStartsWith r.contentType "application/json" = true → r.jsonBody = none →
      responseRow pid r = ⟨pid, "", "", r.status, "Invalid JSON in response"⟩ ∧
      (responseRow pid r).error ≠ "") ∧
    (strStartsWith r.contentType "application/json" = false →
      responseRow pid r = ⟨pid, "", "", r.status, "HTTP " ++ toString r.status⟩ ∧
      (responseRow pid r).error ≠ "") := by
  refine ⟨?_, ?_, ?_⟩
  · intro max_retries backoff attempt
    exact attemptStep_response_done pid max_retries backoff attempt r
      (fun hc => not_retryable_of_2xx h2 hc.1)
  · intro hct hb
    have hd : respData r = none := by simp [respData, hct, hb]
    have he : respErr0 r = some "Invalid JSON in response" := by simp [respErr0, hct, hb]
    have hrow : responseRow pid r = ⟨pid, "", "", r.status, "Invalid JSON in response"⟩ := by
      rw [responseRow_2xx_nodata pid r h2 hd, he]
      simp only [mkErrRow, errOrHTTP]
      rfl
    refine ⟨hrow, ?_⟩
    rw [hrow]
    show ("Invalid JSON in response" : String) ≠ ""
    decide
  · intro hct
    have hd : respData r = none := by simp [respData, hct]
    have he : respErr0 r = none := by simp [respErr0, hct, h2]
    have hrow : responseRow pid r = ⟨pid, "", "", r.status, "HTTP " ++ toString r.status⟩ := by
      rw [responseRow_2xx_nodata pid r h2 hd, he]
      rfl
    refine ⟨hrow, ?_⟩
    rw [hrow]
    exact http_msg_ne_empty (toString r.status)

/-- Witness for the amended C8 at a 200 response with an unparseable
JSON body: terminal, empty fields, non-empty error. -/
theorem terminal_2xx_unparseable_witness :
    (200 ≤ respBadJson.status ∧ respBadJson.status < 300) ∧
    attemptStep "p" 3 (6/5) 1 (.response respBadJson) = .done (responseRow "p" respBadJson) ∧
    responseRow "p" respBadJson = ⟨"p", "", "", 200, "Invalid JSON in response"⟩ ∧
    (responseRow "p" respBadJson).error ≠ "" := by
  have h := terminal_2xx_unparseable "p" respBadJson (by decide)
  have hc := h.2.1 (by decide) rfl
  exact ⟨⟨by decide, by decide⟩, h.1 3 (6/5) 1, hc.1, hc.2⟩
